import Mathlib

/- Shallow embedding of the strava-gpt backend's ingestion and statistics core.

   Source layout:
   * `Storage` models src/app/storage.py (the module imported by src/app/main.py);
   * `StorageBak` models src/app/storage_bak.py (the backup variant);
   * `Stats` models src/app/stats.py;
   * `Main` models the helpers of src/app/main.py;
   * `Strava` models src/app/strava.py.

   Machine reals (Python floats) are modelled as rationals; Python's `round`
   (round-half-to-even) and `int(...)` truncation are modelled explicitly.
   Databases are modelled as lists of rows; SQLAlchemy's get-by-primary-key /
   add / field-assignment upsert pattern is modelled by `upsert_by`. -/

/-- Floor of a rational as an integer (Python's float `//` result). -/
def qfloor (q : ℚ) : Int := ⌊q⌋

/-- Ceiling of a rational as an integer. -/
def qceil (q : ℚ) : Int := ⌈q⌉

/-- Python's `round` on a float: round half to even (banker's rounding). -/
def py_round (q : ℚ) : Int :=
  let f := qfloor q
  let r := q - (f : ℚ)
  if r < 1/2 then f
  else if 1/2 < r then f + 1
  else if f % 2 = 0 then f else f + 1

/-- Python's `int(...)` applied to a float: truncation toward zero. -/
def py_trunc (q : ℚ) : Int := if 0 ≤ q then qfloor q else qceil q

/-- Python's `round(x, 2)`: rounding to two decimal places. -/
def py_round2 (q : ℚ) : ℚ := (py_round (q * 100) : ℚ) / 100

/-- Python's float `%` for a positive modulus applied to `q % 60`. -/
def qmod60 (q : ℚ) : ℚ := q - 60 * (qfloor (q / 60) : ℚ)

/-- Zero-padded two-digit rendering, modelling Python's `{:02d}` for the
    nonnegative seconds values produced by the code. -/
def pad2 (n : Int) : String := if 0 ≤ n ∧ n < 10 then "0" ++ toString n else toString n

/-- Whether `pre` is an initial run of `l` (character lists). -/
def chars_lead : List Char → List Char → Bool
  | [], _ => true
  | _ :: _, [] => false
  | a :: as, b :: bs => a == b && chars_lead as bs

/-- Whether `needle` occurs contiguously inside `l` (character lists). -/
def chars_sub (needle : List Char) : List Char → Bool
  | [] => chars_lead needle []
  | b :: bs => chars_lead needle (b :: bs) || chars_sub needle bs

/-- Python's `needle in hay` on strings: contiguous substring test. -/
def has_sub (hay needle : String) : Bool := chars_sub needle.toList hay.toList

/-- ASCII lower-casing of one character. -/
def char_lower (c : Char) : Char :=
  if 'A' ≤ c ∧ c ≤ 'Z' then Char.ofNat (c.toNat + 32) else c

/-- Python's `str.lower()` on the ASCII labels the upstream API emits. -/
def str_lower (s : String) : String := String.mk (s.toList.map char_lower)

/-- One entry of a Strava `best_efforts` sub-list: an optional label and the
    required `elapsed_time` field (accessed as `effort["elapsed_time"]`). -/
structure Effort where
  name : Option String
  elapsed_time : Int
deriving DecidableEq

/-- A raw Strava activity payload, with exactly the keys the ingestion code
    reads.  Absent JSON keys are `none`; numeric JSON values are rationals. -/
structure Payload where
  id : Option Int
  athlete : Option Int
  athlete_id : Option Int
  sport_type : Option String
  type : Option String
  start_date : Option String
  start_date_local : Option String
  name : Option String
  distance : Option ℚ
  moving_time : Option Int
  elapsed_time : Option Int
  total_elevation_gain : Option ℚ
  average_heartrate : Option ℚ
  max_heartrate : Option ℚ
  best_efforts : List Effort
deriving DecidableEq

/-- Python's `x or y` for optional strings: an absent or empty string falls
    through to `y`. -/
def str_or : Option String → Option String → Option String
  | some s, y => if s == "" then y else some s
  | none, y => y

/-- The owning-user coercion shared by both storage variants:
    `payload.get("athlete", {}).get("id") or payload.get("athlete_id")`,
    then `int(...)` with fallback `0`.  A zero nested id is falsy in Python
    and falls through. -/
def athlete_of (p : Payload) : Int :=
  let x : Option Int :=
    match p.athlete with
    | some v => if v == 0 then p.athlete_id else some v
    | none => p.athlete_id
  match x with
  | some v => v
  | none => 0

/-- Two-digit number parse. -/
def d2p : List Char → Option (Nat × List Char)
  | a :: b :: rest =>
      if a.isDigit && b.isDigit then some ((a.toNat - 48) * 10 + (b.toNat - 48), rest)
      else none
  | _ => none

/-- Literal character parse. -/
def litp (c : Char) : List Char → Option (List Char)
  | x :: rest => if x == c then some rest else none
  | [] => none

/-- Mixed-radix instant key: lexicographic in (y, mo, d, h, mi, s). -/
def dt_key (y mo d h mi s : Nat) : Nat :=
  ((((y * 100 + mo) * 100 + d) * 100 + h) * 100 + mi) * 100 + s

/-- Models the ISO-8601 timestamp parsers used by the sources
    (`dateutil.parser.isoparse` in storage.py, `datetime.fromisoformat` after
    `Z`-replacement in storage_bak.py) on the `YYYY-MM-DD[THH:MM:SS[Z|+00:00]]`
    shapes the upstream API emits; other shapes are rejected.  Returns an
    order-preserving instant key. -/
def parse_iso (str : String) : Option Nat :=
  match d2p str.toList with
  | none => none
  | some (y1, r1) =>
    match d2p r1 with
    | none => none
    | some (y2, r2) =>
      match litp '-' r2 with
      | none => none
      | some r3 =>
        match d2p r3 with
        | none => none
        | some (mo, r4) =>
          match litp '-' r4 with
          | none => none
          | some r5 =>
            match d2p r5 with
            | none => none
            | some (d, r6) =>
              match r6 with
              | [] => some (dt_key (y1 * 100 + y2) mo d 0 0 0)
              | 'T' :: r7 =>
                match d2p r7 with
                | none => none
                | some (h, r8) =>
                  match litp ':' r8 with
                  | none => none
                  | some r9 =>
                    match d2p r9 with
                    | none => none
                    | some (mi, r10) =>
                      match litp ':' r10 with
                      | none => none
                      | some r11 =>
                        match d2p r11 with
                        | none => none
                        | some (s, r12) =>
                          match r12 with
                          | [] => some (dt_key (y1 * 100 + y2) mo d h mi s)
                          | ['Z'] => some (dt_key (y1 * 100 + y2) mo d h mi s)
                          | ['+', '0', '0', ':', '0', '0'] =>
                              some (dt_key (y1 * 100 + y2) mo d h mi s)
                          | _ => none
              | _ => none

/-- SQLAlchemy's get-by-primary-key then assign-or-add pattern: if a row with
    key `i` exists, every such row's mutable fields are overwritten in place
    (the key is unique in the real store); otherwise the new row is appended. -/
def upsert_by {α : Type} (idOf : α → Int) (db : List α) (i : Int) (row : α) : List α :=
  if db.any (fun r => decide (idOf r = i)) then db.map (fun r => if idOf r = i then row else r)
  else db ++ [row]

namespace Stats

/-- One stored activity as consumed by stats.py (the fields `summarize_runs`
    reads from the ORM row). -/
structure Activity where
  distance_m : Int
  moving_time_s : Int
  total_elevation_gain_m : Int
  average_heartrate : Option Int
  raw : Option Payload
deriving DecidableEq

/-- stats.py `pace_per_km`: formats seconds-per-km as `m:ss min/km`, using
    the sentinel `"-"` for nonpositive inputs.  Note the absence of a
    60-second carry branch. -/
def pace_per_km (seconds meters : ℚ) : String :=
  if meters ≤ 0 ∨ seconds ≤ 0 then "-"
  else
    let sec_per_km := seconds / (meters / 1000)
    let m := qfloor (sec_per_km / 60)
    let s := py_round (qmod60 sec_per_km)
    toString m ++ ":" ++ pad2 s ++ " min/km"

/-- stats.py `fmt_time` (inner helper of `summarize_runs`): integer seconds to
    `m:ss`. -/
def fmt_time (sec : Int) : String :=
  toString (Int.ediv sec 60) ++ ":" ++ pad2 (Int.emod sec 60)

/-- Lower-cased effort label, Python `(effort.get("name") or "").lower()`. -/
def lower_name (e : Effort) : String := str_lower (e.name.getD "")

/-- Label predicate for the 5 km bucket: `"5k" in name`. -/
def p5k (nm : String) : Bool := has_sub nm "5k"

/-- Label predicate for the 10 km bucket: `"10k" in name`. -/
def p10k (nm : String) : Bool := has_sub nm "10k"

/-- Label predicate for the half-marathon bucket:
    `any(x in name for x in ["half marathon", "21k", "21.1k", "21.1 km"])`. -/
def p21k (nm : String) : Bool :=
  has_sub nm "half marathon" || has_sub nm "21k" || has_sub nm "21.1k" || has_sub nm "21.1 km"

/-- The per-bucket update of `summarize_runs`:
    `if cond and (best[k] is None or elapsed < best[k]): best[k] = elapsed`. -/
def upd_best (b : Option Int) (v : Int) : Option Int :=
  match b with
  | none => some v
  | some x => if v < x then some v else some x

/-- Processing of one `best_efforts` entry: the three buckets are updated
    independently. -/
def effort_step (best : Option Int × Option Int × Option Int) (e : Effort) :
    Option Int × Option Int × Option Int :=
  let nm := lower_name e
  let v := e.elapsed_time
  ( if p5k nm then upd_best best.1 v else best.1,
    if p10k nm then upd_best best.2.1 v else best.2.1,
    if p21k nm then upd_best best.2.2 v else best.2.2 )

/-- Processing of one run: runs with a falsy/absent raw payload are skipped,
    otherwise every entry of its `best_efforts` sub-list is scanned. -/
def run_step (best : Option Int × Option Int × Option Int) (r : Activity) :
    Option Int × Option Int × Option Int :=
  match r.raw with
  | none => best
  | some raw => raw.best_efforts.foldl effort_step best

/-- The full best-effort scan of `summarize_runs`. -/
def scan_best (runs : List Activity) : Option Int × Option Int × Option Int :=
  runs.foldl run_step (none, none, none)

/-- The summary dictionary produced by stats.py `summarize_runs`. -/
structure Summary where
  sessions : Nat
  distance_km : ℚ
  moving_time_h : ℚ
  elev_gain_m : Int
  avg_pace : String
  avg_hr : Option Int
  best_efforts : List (String × Option String)
deriving DecidableEq

/-- stats.py `summarize_runs`.  Note the truthiness filter
    `[r.average_heartrate for r in runs if r.average_heartrate]` (drops both
    null and zero heart rates) and the `int(...)` truncation of the mean. -/
def summarize_runs (runs : List Activity) : Summary :=
  if runs.isEmpty then
    { sessions := 0, distance_km := 0, moving_time_h := 0, elev_gain_m := 0,
      avg_pace := "-", avg_hr := none, best_efforts := [] }
  else
    let dist : Int := (runs.map (·.distance_m)).sum
    let movs : Int := (runs.map (·.moving_time_s)).sum
    let elev : Int := (runs.map (·.total_elevation_gain_m)).sum
    let hr_vals : List Int := runs.filterMap (fun r =>
      match r.average_heartrate with
      | some h => if h == 0 then none else some h
      | none => none)
    let avg_hr : Option Int :=
      if hr_vals.isEmpty then none
      else some (py_trunc ((hr_vals.sum : ℚ) / (hr_vals.length : ℚ)))
    let best := scan_best runs
    { sessions := runs.length
      distance_km := py_round2 ((dist : ℚ) / 1000)
      moving_time_h := py_round2 ((movs : ℚ) / 3600)
      elev_gain_m := elev
      avg_pace := pace_per_km (movs : ℚ) (dist : ℚ)
      avg_hr := avg_hr
      best_efforts := [("5k", best.1.map fmt_time), ("10k", best.2.1.map fmt_time),
                       ("21k", best.2.2.map fmt_time)] }

/-- Reading a best-effort slot of a summary, Python `summary["best_efforts"].get(k)`:
    both a missing key and a stored `None` read as absent. -/
def be_get (l : List (String × Option String)) (k : String) : Option String :=
  (l.lookup k).bind id

end Stats

namespace Main

/-- main.py `format_pace`: like stats.py `pace_per_km` but with the 60-second
    carry branch and `None` instead of the `"-"` sentinel.  The float
    `math.isfinite` guard is vacuous in the rational model (the first guard
    already rules out division by zero). -/
def format_pace (moving_time_s distance_m : Int) : Option String :=
  if distance_m = 0 ∨ distance_m ≤ 0 then none
  else
    let sec_per_km : ℚ := (moving_time_s : ℚ) / ((distance_m : ℚ) / 1000)
    if sec_per_km ≤ 0 then none
    else
      let m := qfloor (sec_per_km / 60)
      let s := py_round (qmod60 sec_per_km)
      let m := if s = 60 then m + 1 else m
      let s := if s = 60 then 0 else s
      some (toString m ++ ":" ++ pad2 s ++ " min/km")

end Main

/-- The value passed for a credential expiry: Strava's epoch-seconds form or a
    datetime object (aware or naive).  storage.py's `upsert_token` annotates the
    parameter as a datetime while its column and callers use epoch seconds; the
    dynamic value is stored as given, so the model keeps the form explicit. -/
inductive ExpVal where
  | epochSecs (n : Int)
  | instant (secs : Int) (aware : Bool)
deriving DecidableEq

/-- Whether an expiry value is in epoch-seconds form. -/
def ExpVal.is_epoch : ExpVal → Bool
  | .epochSecs _ => true
  | .instant _ _ => false

/-- The upstream token-refresh response body `{access_token, refresh_token,
    expires_at (epoch seconds), scope}`. -/
structure RefreshResp where
  access_token : String
  refresh_token : String
  expires_at : Int
  scope : Option String
deriving DecidableEq

namespace Storage

/-- tokens row of storage.py: `expires_at` is an Integer column holding epoch
    seconds, but the code stores whatever value the caller passed. -/
structure Token where
  athlete_id : Int
  access_token : String
  refresh_token : String
  scope : String
  expires_at : ExpVal
deriving DecidableEq

/-- storage.py `upsert_token`: insert or overwrite in place; the expiry is
    stored exactly as passed, with no normalization at the write boundary. -/
def upsert_token (db : List Token) (athlete_id : Int) (access_token refresh_token : String)
    (expires_at : ExpVal) (scope : Option String) : List Token :=
  upsert_by (·.athlete_id) db athlete_id
    { athlete_id := athlete_id, access_token := access_token, refresh_token := refresh_token,
      scope := scope.getD "", expires_at := expires_at }

/-- storage.py `get_token`: lookup by athlete id. -/
def get_token (db : List Token) (athlete_id : Int) : Option Token :=
  db.find? (·.athlete_id == athlete_id)

/-- activities row of storage.py (all columns written by
    `save_or_update_activity`). -/
structure Activity where
  id : Int
  athlete_id : Int
  type : Option String
  start_date : Option Nat
  name : Option String
  distance_m : Int
  moving_time_s : Int
  elapsed_time_s : Int
  total_elevation_gain_m : Int
  average_heartrate : Option Int
  max_heartrate : Option Int
  raw : Payload
deriving DecidableEq

/-- One iteration of `_parse_start_date`'s key loop: a falsy (absent or empty)
    value is skipped and a parse failure is swallowed by `except: pass`. -/
def try_start_key : Option String → Option Nat
  | none => none
  | some s => if s == "" then none else parse_iso s

/-- storage.py `_parse_start_date`: try `start_date`, then `start_date_local`;
    `None` when neither parses. -/
def parse_start_date (p : Payload) : Option Nat :=
  match try_start_key p.start_date with
  | some t => some t
  | none => try_start_key p.start_date_local

/-- The row built by storage.py `save_or_update_activity` from a payload whose
    id coerced to `i`. -/
def activity_row (p : Payload) (i : Int) : Activity :=
  { id := i
    athlete_id := athlete_of p
    type := str_or p.sport_type (str_or p.type none)
    start_date := parse_start_date p
    name := p.name
    distance_m := py_round (p.distance.getD 0)
    moving_time_s := p.moving_time.getD 0
    elapsed_time_s := p.elapsed_time.getD 0
    total_elevation_gain_m := py_round (p.total_elevation_gain.getD 0)
    average_heartrate := p.average_heartrate.map py_round
    max_heartrate := p.max_heartrate.map py_round
    raw := p }

/-- storage.py `save_or_update_activity`: `none` models the `TypeError` raised
    by `int(None)` when the payload has no id; otherwise the parsed row is
    upserted by primary key.  A missing or unparseable start time is NOT an
    error: the row is stored with `start_date = None`. -/
def save_or_update_activity (p : Payload) (db : List Activity) : Option (List Activity) :=
  match p.id with
  | none => none
  | some i => some (upsert_by (·.id) db i (activity_row p i))

/-- storage.py `RUN_TYPES`. -/
def run_types : List String := ["Run", "Running", "TrailRun", "VirtualRun"]

/-- The WHERE clause of `query_runs`: athlete matches, start date inside the
    closed range (a SQL NULL start date satisfies no comparison), type in
    `RUN_TYPES` (a NULL type is never IN a list). -/
def run_match (athlete_id : Int) (start_key stop_key : Nat) (r : Activity) : Bool :=
  r.athlete_id == athlete_id &&
  (match r.start_date with
   | some k => decide (start_key ≤ k) && decide (k ≤ stop_key)
   | none => false) &&
  (match r.type with
   | some ty => run_types.contains ty
   | none => false)

/-- Ascending order on start instants, the ORDER BY of `query_runs`. -/
def run_le (a b : Activity) : Prop := a.start_date.getD 0 ≤ b.start_date.getD 0

instance : DecidableRel run_le := fun _ _ => Nat.decLe _ _

instance : IsTotal Activity run_le := ⟨fun _ _ => Nat.le_total _ _⟩

instance : IsTrans Activity run_le := ⟨fun _ _ _ => Nat.le_trans⟩

/-- The rows returned by `query_runs`' SELECT: filtered and sorted ascending
    by start date. -/
def run_rows (db : List Activity) (athlete_id : Int) (start_key stop_key : Nat) : List Activity :=
  List.insertionSort run_le (db.filter (run_match athlete_id start_key stop_key))

/-- One output dictionary of `query_runs`. -/
structure RunOut where
  id : Int
  date : Option Nat
  name : Option String
  distance_km : ℚ
  moving_time_min : ℚ
  avg_hr : Option Int
  elev_gain_m : Int
  avg_pace : Option String
deriving DecidableEq

/-- The per-row projection of `query_runs` (derived km, minutes and inline
    mm:ss pace with no carry branch). -/
def row_out (a : Activity) : RunOut :=
  let distance_km : ℚ := (a.distance_m : ℚ) / 1000
  let moving_min : ℚ := (a.moving_time_s : ℚ) / 60
  let avg_pace : Option String :=
    if 0 < distance_km ∧ 0 < moving_min then
      let pace_min := moving_min / distance_km
      let mins := py_trunc pace_min
      let secs := py_round ((pace_min - (mins : ℚ)) * 60)
      some (toString mins ++ ":" ++ pad2 secs ++ " min/km")
    else none
  { id := a.id, date := a.start_date, name := a.name,
    distance_km := py_round2 distance_km, moving_time_min := py_round2 moving_min,
    avg_hr := a.average_heartrate, elev_gain_m := a.total_elevation_gain_m,
    avg_pace := avg_pace }

/-- storage.py `query_runs`. -/
def query_runs (db : List Activity) (athlete_id : Int) (start_key stop_key : Nat) : List RunOut :=
  (run_rows db athlete_id start_key stop_key).map row_out

end Storage

namespace StorageBak

/-- A Python datetime as far as the backup module inspects it: an instant and
    whether it carries tzinfo. -/
structure PyDt where
  secs : Int
  aware : Bool
deriving DecidableEq

/-- A dynamic value reaching `_to_utc_datetime`: `None`, a datetime, a number,
    or a string. -/
inductive PyVal where
  | noneV
  | dt (secs : Int) (aware : Bool)
  | num (n : Int)
  | str (s : String)
deriving DecidableEq

/-- The exception classes storage_bak.py raises. -/
inductive BakError where
  | keyError
  | valueError
  | typeError
deriving DecidableEq

/-- storage_bak.py `_to_utc_datetime`: `None` raises ValueError; an aware
    datetime passes through, a naive one gets UTC attached; a number is read
    as epoch seconds; a string is ISO-parsed (after `Z` replacement) and a
    parse failure raises ValueError. -/
def to_utc_datetime : PyVal → Except BakError PyDt
  | .noneV => .error .valueError
  | .dt s aware => .ok (if aware then { secs := s, aware := aware } else { secs := s, aware := true })
  | .num n => .ok { secs := n, aware := true }
  | .str s =>
    match parse_iso s with
    | some k => .ok { secs := (k : Int), aware := true }
    | none => .error .valueError

/-- tokens row of storage_bak.py: `expires_at` is a timezone-aware DateTime
    column. -/
structure Token where
  athlete_id : Int
  access_token : String
  refresh_token : String
  expires_at : PyDt
  scope : String
deriving DecidableEq

/-- storage_bak.py `upsert_token`: the expiry is normalized through
    `_to_utc_datetime` before the write. -/
def upsert_token (db : List Token) (athlete_id : Int) (access_token refresh_token : String)
    (expires_at : PyVal) (scope : String) : Except BakError (List Token) :=
  match to_utc_datetime expires_at with
  | .error e => .error e
  | .ok exp_dt =>
    .ok (upsert_by (·.athlete_id) db athlete_id
      { athlete_id := athlete_id, access_token := access_token,
        refresh_token := refresh_token, expires_at := exp_dt, scope := scope })

/-- One `upsert_token` call's arguments, for reasoning about write sequences. -/
structure UpCmd where
  athlete_id : Int
  access_token : String
  refresh_token : String
  expires_at : PyVal
  scope : String
deriving DecidableEq

/-- Apply one upsert; a raised error leaves the store unchanged. -/
def apply_upsert (db : List Token) (c : UpCmd) : List Token :=
  match upsert_token db c.athlete_id c.access_token c.refresh_token c.expires_at c.scope with
  | .ok db2 => db2
  | .error _ => db

/-- Apply a sequence of upserts in order. -/
def apply_upserts (cmds : List UpCmd) (db : List Token) : List Token :=
  cmds.foldl apply_upsert db

/-- activities row of storage_bak.py. -/
structure Activity where
  id : Int
  athlete_id : Int
  type : String
  name : String
  start_date : PyDt
  distance_m : Int
  moving_time_s : Int
  elapsed_time_s : Int
  total_elevation_gain_m : Option Int
  average_heartrate : Option ℚ
  max_heartrate : Option ℚ
  raw : Payload
deriving DecidableEq

/-- `act.get("start_date") or act.get("start_date_local")` as the dynamic
    value handed to `_to_utc_datetime`. -/
def bak_start_iso (p : Payload) : PyVal :=
  match str_or p.start_date (str_or p.start_date_local none) with
  | some s => .str s
  | none => .noneV

/-- The row built by storage_bak.py `save_or_update_activity`. -/
def activity_row (p : Payload) (i : Int) (start_dt : PyDt) : Activity :=
  { id := i
    athlete_id := athlete_of p
    type := (let t := (p.type.getD "").trim; if t == "" then "Workout" else t)
    name := (p.name.getD "").trim
    start_date := start_dt
    distance_m := py_round (p.distance.getD 0)
    moving_time_s := p.moving_time.getD 0
    elapsed_time_s := p.elapsed_time.getD 0
    total_elevation_gain_m := p.total_elevation_gain.map py_round
    average_heartrate := p.average_heartrate
    max_heartrate := p.max_heartrate
    raw := p }

/-- storage_bak.py `save_or_update_activity`: a payload without an id raises
    KeyError (`act["id"]`); a missing or unparseable start time raises
    ValueError through `_to_utc_datetime` and nothing is stored. -/
def save_or_update_activity (p : Payload) (db : List Activity) : Except BakError (List Activity) :=
  match p.id with
  | none => .error .keyError
  | some i =>
    match to_utc_datetime (bak_start_iso p) with
    | .error e => .error e
    | .ok start_dt => .ok (upsert_by (·.id) db i (activity_row p i start_dt))

end StorageBak

namespace Main

/-- The live token object main.py works with (`tok.expires_at es epoch (int)`,
    per its own docstring). -/
structure Token where
  athlete_id : Int
  access_token : String
  refresh_token : String
  expires_at : Int
  scope : Option String
deriving DecidableEq

/-- main.py `ensure_fresh_access_token`, with the upstream call abstracted by
    the successful response `resp` and the durable store passed explicitly.
    Returns the store, the (possibly refreshed) token, and whether a refresh
    call was made.  The guard is Python `if tok.expires_at and tok.expires_at
    > (now_ts + 60)` (a zero expiry is falsy). -/
def ensure_fresh_access_token (store : List Storage.Token) (tok : Token) (now_ts : Nat)
    (resp : RefreshResp) : List Storage.Token × Token × Bool :=
  if tok.expires_at ≠ 0 ∧ tok.expires_at > (now_ts : Int) + 60 then (store, tok, false)
  else
    ( Storage.upsert_token store tok.athlete_id resp.access_token resp.refresh_token
        (ExpVal.epochSecs resp.expires_at) resp.scope,
      { tok with access_token := resp.access_token, refresh_token := resp.refresh_token,
                 expires_at := resp.expires_at, scope := resp.scope },
      true )

/-- main.py `best_time_for_dist` (inner helper of `stats_summary`): estimates
    the best time for a target distance by scaling the moving time of the
    whole activity minimizing time-per-target-distance — it does not read the
    raw payload's best-effort sub-list. -/
def best_time_for_dist (runs : List Stats.Activity) (min_dist_m : Int) : Option String :=
  let eligible := runs.filter (fun r => decide (min_dist_m ≤ r.distance_m) && decide (0 < r.moving_time_s))
  match eligible with
  | [] => none
  | x :: xs =>
    let key : Stats.Activity → ℚ := fun r => (r.moving_time_s : ℚ) / ((r.distance_m : ℚ) / (min_dist_m : ℚ))
    let best := xs.foldl (fun b r => if key r < key b then r else b) x
    let ratio : ℚ := (min_dist_m : ℚ) / (best.distance_m : ℚ)
    let secs := py_trunc ((best.moving_time_s : ℚ) * ratio)
    some (toString (Int.ediv secs 60) ++ ":" ++ pad2 (Int.emod secs 60))

end Main

namespace Strava

/-- strava.py `ensure_fresh_token`, with the upstream refresh abstracted by
    `resp` and `storage_updater` instantiated with the storage upsert (as the
    application does; that call path passes no scope).  Note the guard
    `if token_row.expires_at - 60 < now`. -/
def ensure_fresh_token (store : List Storage.Token) (tok : Main.Token) (now : Nat)
    (resp : RefreshResp) : List Storage.Token × Main.Token × Bool :=
  if tok.expires_at - 60 < (now : Int) then
    ( Storage.upsert_token store tok.athlete_id resp.access_token resp.refresh_token
        (ExpVal.epochSecs resp.expires_at) none,
      { tok with access_token := resp.access_token, refresh_token := resp.refresh_token,
                 expires_at := resp.expires_at },
      true )
  else (store, tok, false)

end Strava

section UpsertLemmas

variable {α : Type}

theorem countP_map_replace (idOf : α → Int) (i : Int) (row : α) (h : idOf row = i) :
    ∀ db : List α,
      (db.map (fun r => if idOf r = i then row else r)).countP (fun r => decide (idOf r = i)) =
        db.countP (fun r => decide (idOf r = i))
  | [] => rfl
  | x :: xs => by
    by_cases hx : idOf x = i <;>
      simp [List.countP_cons, hx, h, countP_map_replace idOf i row h xs]

theorem map_replace_of_none (idOf : α → Int) (i : Int) (row : α) :
    ∀ db : List α, (∀ x ∈ db, idOf x ≠ i) →
      db.map (fun r => if idOf r = i then row else r) = db
  | [], _ => rfl
  | x :: xs, hall => by
    have hx := hall x (by simp)
    simp only [List.map_cons, if_neg hx]
    rw [map_replace_of_none idOf i row xs (fun y hy => hall y (by simp [hy]))]

theorem map_replace_idem (idOf : α → Int) (i : Int) (row : α) (h : idOf row = i) :
    ∀ db : List α,
      (db.map (fun r => if idOf r = i then row else r)).map
          (fun r => if idOf r = i then row else r)
        = db.map (fun r => if idOf r = i then row else r)
  | [] => rfl
  | x :: xs => by
    by_cases hx : idOf x = i <;>
      simp [hx, h, map_replace_idem idOf i row h xs]

theorem upsert_by_self_mem (idOf : α → Int) (db : List α) (i : Int) (row : α)
    (h : idOf row = i) : row ∈ upsert_by idOf db i row := by
  unfold upsert_by
  by_cases hany : db.any (fun r => decide (idOf r = i)) = true
  · rw [if_pos hany]
    have hex : ∃ x ∈ db, idOf x = i := by simpa [List.any_eq_true] using hany
    obtain ⟨x, hx, hxi⟩ := hex
    exact List.mem_map.mpr ⟨x, hx, by simp [hxi]⟩
  · rw [if_neg hany]
    simp

theorem upsert_by_idem (idOf : α → Int) (db : List α) (i : Int) (row : α)
    (h : idOf row = i) :
    upsert_by idOf (upsert_by idOf db i row) i row = upsert_by idOf db i row := by
  unfold upsert_by
  by_cases hany : db.any (fun r => decide (idOf r = i)) = true
  · rw [if_pos hany]
    have hex : ∃ x ∈ db, idOf x = i := by simpa [List.any_eq_true] using hany
    obtain ⟨x, hx, hxi⟩ := hex
    have hany2 : (db.map (fun r => if idOf r = i then row else r)).any
        (fun r => decide (idOf r = i)) = true :=
      List.any_eq_true.mpr ⟨row, List.mem_map.mpr ⟨x, hx, by simp [hxi]⟩, by simp [h]⟩
    rw [if_pos hany2]
    exact map_replace_idem idOf i row h db
  · rw [if_neg hany]
    have hall : ∀ x ∈ db, idOf x ≠ i := by
      intro x hx hxi
      exact hany (List.any_eq_true.mpr ⟨x, hx, by simp [hxi]⟩)
    have hany2 : ((db ++ [row]).any (fun r => decide (idOf r = i))) = true :=
      List.any_eq_true.mpr ⟨row, by simp, by simp [h]⟩
    rw [if_pos hany2, List.map_append, map_replace_of_none idOf i row db hall]
    simp [h]

theorem upsert_by_countP_one (idOf : α → Int) (db : List α) (i : Int) (row : α)
    (h : idOf row = i) (hc : db.countP (fun r => decide (idOf r = i)) ≤ 1) :
    (upsert_by idOf db i row).countP (fun r => decide (idOf r = i)) = 1 := by
  unfold upsert_by
  by_cases hany : db.any (fun r => decide (idOf r = i)) = true
  · rw [if_pos hany, countP_map_replace idOf i row h db]
    have hex : ∃ x ∈ db, idOf x = i := by simpa [List.any_eq_true] using hany
    obtain ⟨x, hx, hxi⟩ := hex
    have hpos : 0 < db.countP (fun r => decide (idOf r = i)) :=
      List.countP_pos_iff.mpr ⟨x, hx, by simp [hxi]⟩
    omega
  · rw [if_neg hany, List.countP_append]
    have h0 : db.countP (fun r => decide (idOf r = i)) = 0 := by
      apply List.countP_eq_zero.mpr
      intro x hx
      simp only [decide_eq_true_eq]
      intro hxi
      exact hany (List.any_eq_true.mpr ⟨x, hx, by simp [hxi]⟩)
    simp [h0, h]

theorem upsert_by_all_id (idOf : α → Int) (db : List α) (i : Int) (row : α)
    (h : idOf row = i) :
    ∀ r ∈ upsert_by idOf db i row, idOf r = i → r = row := by
  unfold upsert_by
  by_cases hany : db.any (fun r => decide (idOf r = i)) = true
  · rw [if_pos hany]
    intro r hr hri
    obtain ⟨x, hx, hgx⟩ := List.mem_map.mp hr
    by_cases hxi : idOf x = i
    · rw [← hgx]
      simp [hxi]
    · rw [← hgx] at hri ⊢
      rw [if_neg hxi] at hri ⊢
      exact absurd hri hxi
  · rw [if_neg hany]
    intro r hr hri
    rcases List.mem_append.mp hr with h1 | h2
    · exact absurd (List.any_eq_true.mpr ⟨r, h1, by simp [hri]⟩) hany
    · simpa using h2

theorem upsert_by_mem_or (idOf : α → Int) (db : List α) (i : Int) (row : α) (t : α) :
    t ∈ upsert_by idOf db i row → t ∈ db ∨ t = row := by
  unfold upsert_by
  by_cases hany : db.any (fun r => decide (idOf r = i)) = true
  · rw [if_pos hany]
    intro ht
    obtain ⟨x, hx, hgx⟩ := List.mem_map.mp ht
    by_cases hxi : idOf x = i
    · right
      rw [← hgx]
      simp [hxi]
    · left
      rw [← hgx, if_neg hxi]
      exact hx
  · rw [if_neg hany]
    intro ht
    rcases List.mem_append.mp ht with h1 | h2
    · exact .inl h1
    · exact .inr (by simpa using h2)

end UpsertLemmas

/-- Claim C4: the claim requires every formatted pace to have a seconds
    component in [0,59] with a carry at 60.  main.py's `format_pace` satisfies
    this (357 s over 6000 m rounds the seconds to 60 and carries to "1:00"),
    but stats.py's `pace_per_km` — one of the two pace formatters the spec
    sentence covers — lacks the carry branch and emits the invalid string
    "0:60 min/km" on the same input.  The claim is right and `pace_per_km` is
    the slip; the spec itself calls the carry a correctness requirement. -/
theorem pace_per_km_missing_carry_eval :
    Stats.pace_per_km 357 6000 = "0:60 min/km" ∧
    Main.format_pace 357 6000 = some "1:00 min/km" ∧
    Main.format_pace 400 1000 = some "6:40 min/km" ∧
    Main.format_pace 360 1000 = some "6:00 min/km" := by
  refine ⟨?_, ?_, ?_, ?_⟩
  · have hs : py_round (qmod60 ((357 : ℚ) / (6000 / 1000))) = 60 := by
      norm_num [py_round, qmod60, qfloor]
    have hm : qfloor ((357 : ℚ) / (6000 / 1000) / 60) = 0 := by norm_num [qfloor]
    simp only [Stats.pace_per_km, hs, hm]
    norm_num
    decide
  · have hs : py_round (qmod60 (((357 : Int) : ℚ) / (((6000 : Int) : ℚ) / 1000))) = 60 := by
      norm_num [py_round, qmod60, qfloor]
    have hm : qfloor ((((357 : Int) : ℚ)) / (((6000 : Int) : ℚ) / 1000) / 60) = 0 := by
      norm_num [qfloor]
    simp only [Main.format_pace, hs, hm]
    norm_num
    decide
  · have hs : py_round (qmod60 (((400 : Int) : ℚ) / (((1000 : Int) : ℚ) / 1000))) = 40 := by
      norm_num [py_round, qmod60, qfloor]
    have hm : qfloor ((((400 : Int) : ℚ)) / (((1000 : Int) : ℚ) / 1000) / 60) = 6 := by
      norm_num [qfloor]
    simp only [Main.format_pace, hs, hm]
    norm_num
    decide
  · have hs : py_round (qmod60 (((360 : Int) : ℚ) / (((1000 : Int) : ℚ) / 1000))) = 0 := by
      norm_num [py_round, qmod60, qfloor]
    have hm : qfloor ((((360 : Int) : ℚ)) / (((1000 : Int) : ℚ) / 1000) / 60) = 6 := by
      norm_num [qfloor]
    simp only [Main.format_pace, hs, hm]
    norm_num
    decide

/-- Claim C7: summarizing the empty record list returns, without error, a
    summary with 0 sessions, 0.0 km, 0.0 h, 0 m elevation, the absent-pace
    sentinel "-", absent average heart rate, and all three best-effort slots
    reading as absent. -/
theorem summarize_empty_spec :
    Stats.summarize_runs [] =
      { sessions := 0, distance_km := 0, moving_time_h := 0, elev_gain_m := 0,
        avg_pace := "-", avg_hr := none, best_efforts := [] } ∧
    Stats.be_get (Stats.summarize_runs []).best_efforts "5k" = none ∧
    Stats.be_get (Stats.summarize_runs []).best_efforts "10k" = none ∧
    Stats.be_get (Stats.summarize_runs []).best_efforts "21k" = none :=
  ⟨rfl, rfl, rfl, rfl⟩

/-- Claim C10: for every strictly positive distance, a zero or negative
    duration yields the absent result from both pace formatters (`None` from
    main.py's `format_pace`, the "-" sentinel from stats.py's `pace_per_km`),
    never a "0:00" string. -/
theorem format_pace_nonpositive_duration_absent (t d : Int) (ht : t ≤ 0) (hd : 0 < d) :
    Main.format_pace t d = none ∧ Stats.pace_per_km (t : ℚ) (d : ℚ) = "-" := by
  constructor
  · have h1 : ¬(d = 0 ∨ d ≤ 0) := by omega
    have h2 : ((t : Int) : ℚ) / (((d : Int) : ℚ) / 1000) ≤ 0 := by
      apply div_nonpos_of_nonpos_of_nonneg
      · exact_mod_cast ht
      · positivity
    simp only [Main.format_pace, if_neg h1, if_pos h2]
  · have h2 : ((t : Int) : ℚ) ≤ 0 := by exact_mod_cast ht
    simp only [Stats.pace_per_km, if_pos (Or.inr h2)]

/-- Claim C10 witness at duration 0 s, distance 1000 m. -/
theorem format_pace_nonpositive_duration_absent_witness :
    Main.format_pace 0 1000 = none ∧ Stats.pace_per_km ((0 : Int) : ℚ) ((1000 : Int) : ℚ) = "-" :=
  format_pace_nonpositive_duration_absent 0 1000 (by decide) (by decide)

/-- Claim C1: save-or-update is idempotent in both storage variants.  For any
    payload carrying an integer identifier and any store in which that
    identifier is not duplicated, a second call with the identical payload
    returns the same store as the first (no-op diff), the store holds exactly
    one record for the identifier, and that record is the row parsed from the
    payload (the backup variant quantified over its successful outcome, since
    it refuses payloads without a parseable start time). -/
theorem save_or_update_idempotent (p : Payload) (i : Int)
    (db : List Storage.Activity) (bdb : List StorageBak.Activity)
    (hid : p.id = some i)
    (hc : db.countP (fun r => decide (r.id = i)) ≤ 1)
    (hbc : bdb.countP (fun r => decide (r.id = i)) ≤ 1) :
    (∃ db1, Storage.save_or_update_activity p db = some db1 ∧
      Storage.save_or_update_activity p db1 = some db1 ∧
      db1.countP (fun r => decide (r.id = i)) = 1 ∧
      ∀ r ∈ db1, r.id = i → r = Storage.activity_row p i) ∧
    (∀ bdb1, StorageBak.save_or_update_activity p bdb = .ok bdb1 →
      StorageBak.save_or_update_activity p bdb1 = .ok bdb1 ∧
      bdb1.countP (fun r => decide (r.id = i)) = 1 ∧
      ∃ sdt, StorageBak.to_utc_datetime (StorageBak.bak_start_iso p) = .ok sdt ∧
        ∀ r ∈ bdb1, r.id = i → r = StorageBak.activity_row p i sdt) := by
  constructor
  · refine ⟨upsert_by (·.id) db i (Storage.activity_row p i), ?_, ?_, ?_, ?_⟩
    · simp [Storage.save_or_update_activity, hid]
    · simp only [Storage.save_or_update_activity, hid]
      rw [upsert_by_idem (·.id) db i (Storage.activity_row p i) rfl]
    · exact upsert_by_countP_one (·.id) db i (Storage.activity_row p i) rfl hc
    · exact upsert_by_all_id (·.id) db i (Storage.activity_row p i) rfl
  · intro bdb1 hok
    simp only [StorageBak.save_or_update_activity, hid] at hok
    cases hdt : StorageBak.to_utc_datetime (StorageBak.bak_start_iso p) with
    | error e => rw [hdt] at hok; cases hok
    | ok sdt =>
      rw [hdt] at hok
      have hb : bdb1 = upsert_by (·.id) bdb i (StorageBak.activity_row p i sdt) := by
        cases hok; rfl
      subst hb
      refine ⟨?_, ?_, sdt, rfl, ?_⟩
      · simp only [StorageBak.save_or_update_activity, hid, hdt]
        rw [upsert_by_idem (·.id) bdb i (StorageBak.activity_row p i sdt) rfl]
      · exact upsert_by_countP_one (·.id) bdb i (StorageBak.activity_row p i sdt) rfl hbc
      · exact upsert_by_all_id (·.id) bdb i (StorageBak.activity_row p i sdt) rfl

/-- A concrete well-formed payload (integer id, parseable UTC start time). -/
def c1_payload : Payload :=
  { id := some 42, athlete := some 7, athlete_id := none, sport_type := none,
    type := some "Run", start_date := some "2025-06-01T07:00:00Z", start_date_local := none,
    name := some "Morning Run", distance := some 5000, moving_time := some 1500,
    elapsed_time := some 1550, total_elevation_gain := some 42,
    average_heartrate := some 160, max_heartrate := some 180,
    best_efforts := [] }

/-- Claim C1 witness: the idempotence theorem applied to a concrete payload
    on the empty stores. -/
theorem save_or_update_idempotent_witness :
    (∃ db1, Storage.save_or_update_activity c1_payload [] = some db1 ∧
      Storage.save_or_update_activity c1_payload db1 = some db1 ∧
      db1.countP (fun r => decide (r.id = 42)) = 1 ∧
      ∀ r ∈ db1, r.id = 42 → r = Storage.activity_row c1_payload 42) ∧
    (∀ bdb1, StorageBak.save_or_update_activity c1_payload [] = .ok bdb1 →
      StorageBak.save_or_update_activity c1_payload bdb1 = .ok bdb1 ∧
      bdb1.countP (fun r => decide (r.id = 42)) = 1 ∧
      ∃ sdt, StorageBak.to_utc_datetime (StorageBak.bak_start_iso c1_payload) = .ok sdt ∧
        ∀ r ∈ bdb1, r.id = 42 → r = StorageBak.activity_row c1_payload 42 sdt) :=
  save_or_update_idempotent c1_payload 42 [] [] rfl (by decide) (by decide)

/-- A payload with a valid identifier but no start-time fields at all. -/
def c5_payload : Payload :=
  { id := some 5, athlete := some 9, athlete_id := none, sport_type := none,
    type := some "Run", start_date := none, start_date_local := none,
    name := some "No Timestamp", distance := some 1000, moving_time := some 300,
    elapsed_time := some 320, total_elevation_gain := none,
    average_heartrate := none, max_heartrate := none,
    best_efforts := [] }

/-- Claim C5 counterexample: a payload with a valid identifier and no
    parseable start time is NOT rejected by the active ingestion path — it is
    stored, with an empty start instant, contradicting the claimed
    MalformedPayloadError failure (no such error exists in the code). -/
theorem missing_start_stored_counterexample :
    Storage.save_or_update_activity c5_payload [] =
      some [Storage.activity_row c5_payload 5] ∧
    (Storage.activity_row c5_payload 5).start_date = none := by
  constructor
  · simp [Storage.save_or_update_activity, upsert_by, c5_payload]
  · rfl

theorem str_or_of_failed_key (o y : Option String)
    (hfail : Storage.try_start_key o = none) :
    str_or o y = y ∨ ∃ s, str_or o y = some s ∧ parse_iso s = none := by
  cases o with
  | none => exact .inl rfl
  | some s =>
    by_cases he : (s == "") = true
    · exact .inl (by simp only [str_or, if_pos he])
    · refine .inr ⟨s, by simp only [str_or, if_neg he], ?_⟩
      simpa [Storage.try_start_key, he] using hfail

theorem bak_start_parse_fails (p : Payload)
    (h1 : Storage.try_start_key p.start_date = none)
    (h2 : Storage.try_start_key p.start_date_local = none) :
    StorageBak.to_utc_datetime (StorageBak.bak_start_iso p) = .error .valueError := by
  unfold StorageBak.bak_start_iso
  rcases str_or_of_failed_key p.start_date (str_or p.start_date_local none) h1 with
    ha | ⟨s, hs, hps⟩
  · rw [ha]
    rcases str_or_of_failed_key p.start_date_local none h2 with hb | ⟨s2, hs2, hps2⟩
    · rw [hb]
      rfl
    · rw [hs2]
      simp [StorageBak.to_utc_datetime, hps2]
  · rw [hs]
    simp [StorageBak.to_utc_datetime, hps]

/-- Claim C5 amended: for a payload with a valid identifier whose start-time
    fields are each absent, empty, or unparseable (`try_start_key` returning
    `none` is exactly that disjunction, per `_parse_start_date`'s falsy check
    and swallowed parse exception), the active storage module stores the
    record with an absent start instant and raises nothing, while the backup
    module raises ValueError (not a MalformedPayloadError, which exists
    nowhere) and stores nothing. -/
theorem missing_start_behavior (p : Payload) (i : Int)
    (db : List Storage.Activity) (bdb : List StorageBak.Activity)
    (hid : p.id = some i)
    (h1 : Storage.try_start_key p.start_date = none)
    (h2 : Storage.try_start_key p.start_date_local = none) :
    (∃ db1, Storage.save_or_update_activity p db = some db1 ∧
      Storage.activity_row p i ∈ db1 ∧
      (Storage.activity_row p i).start_date = none ∧
      ∀ r ∈ db1, r.id = i → r.start_date = none) ∧
    StorageBak.save_or_update_activity p bdb = .error .valueError := by
  have hrow : (Storage.activity_row p i).start_date = none := by
    simp [Storage.activity_row, Storage.parse_start_date, h1, h2]
  constructor
  · refine ⟨upsert_by (·.id) db i (Storage.activity_row p i), ?_, ?_, hrow, ?_⟩
    · simp [Storage.save_or_update_activity, hid]
    · exact upsert_by_self_mem (·.id) db i (Storage.activity_row p i) rfl
    · intro r hr hri
      rw [upsert_by_all_id (·.id) db i (Storage.activity_row p i) rfl r hr hri]
      exact hrow
  · simp only [StorageBak.save_or_update_activity, hid]
    rw [bak_start_parse_fails p h1 h2]

/-- A payload with a valid identifier carrying an unparseable timestamp. -/
def c5_payload_badts : Payload :=
  { c5_payload with id := some 6, start_date := some "not-a-timestamp" }

/-- Claim C5 witness for the amended statement, at a concrete timestampless
    payload and at one carrying an unparseable timestamp, on empty stores. -/
theorem missing_start_behavior_witness :
    ((∃ db1, Storage.save_or_update_activity c5_payload [] = some db1 ∧
      Storage.activity_row c5_payload 5 ∈ db1 ∧
      (Storage.activity_row c5_payload 5).start_date = none ∧
      ∀ r ∈ db1, r.id = 5 → r.start_date = none) ∧
    StorageBak.save_or_update_activity c5_payload [] = .error .valueError) ∧
    ((∃ db1, Storage.save_or_update_activity c5_payload_badts [] = some db1 ∧
      Storage.activity_row c5_payload_badts 6 ∈ db1 ∧
      (Storage.activity_row c5_payload_badts 6).start_date = none ∧
      ∀ r ∈ db1, r.id = 6 → r.start_date = none) ∧
    StorageBak.save_or_update_activity c5_payload_badts [] = .error .valueError) :=
  ⟨missing_start_behavior c5_payload 5 [] [] rfl rfl rfl,
   missing_start_behavior c5_payload_badts 6 [] [] rfl (by decide) rfl⟩

/-- A live token expiring at epoch second 1060. -/
def c2_token : Main.Token :=
  { athlete_id := 1, access_token := "old-access", refresh_token := "old-refresh",
    expires_at := 1060, scope := some "read" }

/-- A concrete upstream refresh response. -/
def c2_resp : RefreshResp :=
  { access_token := "new-access", refresh_token := "new-refresh", expires_at := 9999,
    scope := some "read" }

/-- Claim C2 counterexample: at current time 1000, a credential expiring at
    1060 is NOT strictly beyond now + 60, so the claim requires a refresh;
    yet strava.py's `ensure_fresh_token` (one of the two cited
    implementations) returns the credential unchanged and performs no refresh
    call at this boundary. -/
theorem ensure_fresh_token_boundary_counterexample :
    ¬ ((1060 : Int) > (1000 : Int) + 60) ∧
    Strava.ensure_fresh_token [] c2_token 1000 c2_resp = ([], c2_token, false) := by
  constructor
  · decide
  · norm_num [Strava.ensure_fresh_token, c2_token]

/-- Claim C2 amended: main.py's `ensure_fresh_access_token` returns the
    credential unchanged exactly when its expiry is strictly beyond now + 60
    seconds, and otherwise refreshes, persists and returns the refreshed
    triple; strava.py's `ensure_fresh_token` instead returns it unchanged
    already when the expiry is at least now + 60 (refreshing only strictly
    below the horizon), so the two variants disagree exactly at expiry =
    now + 60.  A credential expiring in 30 s is refreshed and one expiring in
    3600 s is not, in both. -/
theorem ensure_fresh_margin_characterization (store : List Storage.Token) (tok : Main.Token)
    (now_ts : Nat) (resp : RefreshResp) :
    Main.ensure_fresh_access_token store tok now_ts resp =
      (if tok.expires_at > (now_ts : Int) + 60 then (store, tok, false)
       else (Storage.upsert_token store tok.athlete_id resp.access_token resp.refresh_token
               (ExpVal.epochSecs resp.expires_at) resp.scope,
             { tok with access_token := resp.access_token, refresh_token := resp.refresh_token,
                        expires_at := resp.expires_at, scope := resp.scope }, true))
    ∧ Strava.ensure_fresh_token store tok now_ts resp =
      (if tok.expires_at ≥ (now_ts : Int) + 60 then (store, tok, false)
       else (Storage.upsert_token store tok.athlete_id resp.access_token resp.refresh_token
               (ExpVal.epochSecs resp.expires_at) none,
             { tok with access_token := resp.access_token, refresh_token := resp.refresh_token,
                        expires_at := resp.expires_at }, true)) := by
  constructor
  · unfold Main.ensure_fresh_access_token
    by_cases h : tok.expires_at > (now_ts : Int) + 60
    · rw [if_pos h, if_pos ⟨by omega, h⟩]
    · rw [if_neg h, if_neg (fun hc => h hc.2)]
  · unfold Strava.ensure_fresh_token
    by_cases h : tok.expires_at ≥ (now_ts : Int) + 60
    · rw [if_neg (by omega), if_pos h]
    · rw [if_pos (by omega), if_neg h]

/-- Claim C9 counterexample: the active store's `upsert_token` performs no
    normalization at the write boundary — after two writes that use the two
    accepted input forms, the stored expiry fields keep their differing
    forms, so stored credentials do not share one canonical expiry type. -/
theorem upsert_token_no_normalization_counterexample :
    Storage.upsert_token (Storage.upsert_token [] 1 "a1" "r1" (ExpVal.epochSecs 100) none)
        2 "a2" "r2" (ExpVal.instant 500 true) none =
      [{ athlete_id := 1, access_token := "a1", refresh_token := "r1", scope := "",
         expires_at := ExpVal.epochSecs 100 },
       { athlete_id := 2, access_token := "a2", refresh_token := "r2", scope := "",
         expires_at := ExpVal.instant 500 true }] ∧
    (ExpVal.epochSecs 100).is_epoch = true ∧ (ExpVal.instant 500 true).is_epoch = false := by
  refine ⟨?_, rfl, rfl⟩
  decide

theorem to_utc_datetime_aware (v : StorageBak.PyVal) (d : StorageBak.PyDt)
    (h : StorageBak.to_utc_datetime v = .ok d) : d.aware = true := by
  cases v with
  | noneV => cases h
  | dt s aware =>
    simp only [StorageBak.to_utc_datetime] at h
    cases aware
    · simp only [if_neg Bool.false_ne_true] at h
      cases h
      rfl
    · simp only [if_pos rfl] at h
      cases h
      rfl
  | num n =>
    cases h
    rfl
  | str s =>
    simp only [StorageBak.to_utc_datetime] at h
    cases hp : parse_iso s <;> rw [hp] at h
    · cases h
    · cases h
      rfl

/-- Claim C9 amended: the backup store's `upsert_token` does normalize either
    accepted expiry form to a timezone-aware instant at the write boundary,
    so after any sequence of upserts every stored credential's expiry carries
    the canonical aware form; the active store's `upsert_token` stores the
    value exactly as passed (no normalization), relying on its callers always
    passing epoch seconds. -/
theorem bak_upsert_expiry_aware_invariant (cmds : List StorageBak.UpCmd)
    (db : List StorageBak.Token)
    (hdb : ∀ t ∈ db, t.expires_at.aware = true) :
    ∀ t ∈ StorageBak.apply_upserts cmds db, t.expires_at.aware = true := by
  induction cmds generalizing db with
  | nil => simpa [StorageBak.apply_upserts] using hdb
  | cons c cs ih =>
    intro t ht
    simp only [StorageBak.apply_upserts, List.foldl_cons] at ht
    refine ih (StorageBak.apply_upsert db c) ?_ t ht
    intro u hu
    unfold StorageBak.apply_upsert at hu
    cases hc : StorageBak.upsert_token db c.athlete_id c.access_token c.refresh_token
        c.expires_at c.scope with
    | error e =>
      rw [hc] at hu
      exact hdb u hu
    | ok db2 =>
      rw [hc] at hu
      unfold StorageBak.upsert_token at hc
      cases hd : StorageBak.to_utc_datetime c.expires_at with
      | error e => rw [hd] at hc; cases hc
      | ok dexp =>
        rw [hd] at hc
        have hdb2 : db2 = upsert_by (·.athlete_id) db c.athlete_id
            { athlete_id := c.athlete_id, access_token := c.access_token,
              refresh_token := c.refresh_token, expires_at := dexp, scope := c.scope } := by
          cases hc
          rfl
        subst hdb2
        rcases upsert_by_mem_or (·.athlete_id) db c.athlete_id _ u hu with h1 | h2
        · exact hdb u h1
        · rw [h2]
          exact to_utc_datetime_aware _ _ hd

/-- Claim C9 witness: the aware-expiry invariant applied to one concrete
    epoch-seconds upsert on the empty backup store. -/
theorem bak_upsert_expiry_aware_invariant_witness :
    ({ athlete_id := 1, access_token := "a", refresh_token := "r",
       expires_at := { secs := 100, aware := true }, scope := "" } : StorageBak.Token).expires_at.aware
      = true :=
  bak_upsert_expiry_aware_invariant
    [{ athlete_id := 1, access_token := "a", refresh_token := "r",
       expires_at := StorageBak.PyVal.num 100, scope := "" }] []
    (by intro t ht; cases ht) _ (by decide)

/-- The claim's reading of the summary average heart rate: the exact
    arithmetic mean over records whose heart rate is present (non-null). -/
def claim_avg_hr (runs : List Stats.Activity) : Option ℚ :=
  let xs := runs.filterMap (·.average_heartrate)
  if xs.isEmpty then none else some ((xs.sum : ℚ) / (xs.length : ℚ))

/-- A record with average heart rate 150. -/
def c6_run_hr150 : Stats.Activity :=
  { distance_m := 5000, moving_time_s := 1500, total_elevation_gain_m := 0,
    average_heartrate := some 150, raw := none }

/-- A record with average heart rate 0 (present, non-null). -/
def c6_run_hr0 : Stats.Activity :=
  { distance_m := 4000, moving_time_s := 1400, total_elevation_gain_m := 0,
    average_heartrate := some 0, raw := none }

/-- Claim C6 counterexample: for records with heart rates 150 and 0 (the
    latter present and non-null), the claimed mean over present heart rates is
    75, but the summary reports 150 — Python truthiness drops the zero value,
    so the summary average is not the mean over all non-null heart rates. -/
theorem avg_hr_zero_counterexample :
    (Stats.summarize_runs [c6_run_hr150, c6_run_hr0]).avg_hr = some 150 ∧
    claim_avg_hr [c6_run_hr150, c6_run_hr0] = some 75 ∧
    ((Stats.summarize_runs [c6_run_hr150, c6_run_hr0]).avg_hr.map (fun z => (z : ℚ))) ≠
      claim_avg_hr [c6_run_hr150, c6_run_hr0] := by
  have h1 : (Stats.summarize_runs [c6_run_hr150, c6_run_hr0]).avg_hr = some 150 := by
    simp [Stats.summarize_runs, c6_run_hr150, c6_run_hr0, List.filterMap_cons]
    norm_num [py_trunc, qfloor]
  have h2 : claim_avg_hr [c6_run_hr150, c6_run_hr0] = some 75 := by
    simp [claim_avg_hr, c6_run_hr150, c6_run_hr0, List.filterMap_cons]
    norm_num
  refine ⟨h1, h2, ?_⟩
  rw [h1, h2]
  simp

theorem hr_vals_eq_filter (runs : List Stats.Activity) :
    runs.filterMap (fun r =>
      match r.average_heartrate with
      | some h => if h == 0 then none else some h
      | none => none) =
    (runs.filter (fun r =>
      decide (r.average_heartrate ≠ none ∧ r.average_heartrate ≠ some 0))).map
      (fun r => r.average_heartrate.getD 0) := by
  induction runs with
  | nil => rfl
  | cons r rs ih =>
    cases hr : r.average_heartrate with
    | none =>
      simp [List.filterMap_cons, List.filter_cons, hr]
      simpa using ih
    | some h =>
      by_cases h0 : h = 0
      · subst h0
        simp [List.filterMap_cons, List.filter_cons, hr]
        simpa using ih
      · simp [List.filterMap_cons, List.filter_cons, hr, h0]
        simpa using ih

/-- The average-heart-rate computation of main.py `stats_summary` (the
    endpoint summary, also cited by the claim): the same truthiness list
    comprehension as stats.py's `summarize_runs`, but the mean goes through
    `round(...)` (half to even) instead of `int(...)`. -/
def Main.stats_avg_hr (runs : List Stats.Activity) : Option Int :=
  let avg_hr_vals : List Int := runs.filterMap (fun r =>
    match r.average_heartrate with
    | some h => if h == 0 then none else some h
    | none => none)
  if avg_hr_vals.isEmpty then none
  else some (py_round ((avg_hr_vals.sum : ℚ) / (avg_hr_vals.length : ℚ)))

/-- Claim C6 amended: in both cited implementations the average heart rate is
    computed over exactly those records whose heart rate is present AND
    nonzero (the truthiness filter also treats a zero heart rate as absent),
    and is absent when there is no such record; stats.py's `summarize_runs`
    truncates that mean with `int(...)` while main.py's `stats_summary`
    rounds it half-to-even with `round(...)`.  Nulls are still never counted
    as zero, so for heart rates 150 and absent the average is 150, not 75. -/
theorem avg_hr_truthy_mean (runs : List Stats.Activity) :
    ((Stats.summarize_runs runs).avg_hr =
      (if (runs.filter (fun r =>
            decide (r.average_heartrate ≠ none ∧ r.average_heartrate ≠ some 0))).isEmpty
       then none
       else some (py_trunc
         ((((runs.filter (fun r =>
              decide (r.average_heartrate ≠ none ∧ r.average_heartrate ≠ some 0))).map
              (fun r => r.average_heartrate.getD 0)).sum : ℚ) /
          ((runs.filter (fun r =>
              decide (r.average_heartrate ≠ none ∧ r.average_heartrate ≠ some 0))).length : ℚ))))) ∧
    (Main.stats_avg_hr runs =
      (if (runs.filter (fun r =>
            decide (r.average_heartrate ≠ none ∧ r.average_heartrate ≠ some 0))).isEmpty
       then none
       else some (py_round
         ((((runs.filter (fun r =>
              decide (r.average_heartrate ≠ none ∧ r.average_heartrate ≠ some 0))).map
              (fun r => r.average_heartrate.getD 0)).sum : ℚ) /
          ((runs.filter (fun r =>
              decide (r.average_heartrate ≠ none ∧ r.average_heartrate ≠ some 0))).length : ℚ))))) := by
  constructor
  · by_cases he : runs.isEmpty
    · have hnil : runs = [] := by
        cases runs
        · rfl
        · cases he
      subst hnil
      rfl
    · simp only [Stats.summarize_runs, if_neg he]
      rw [hr_vals_eq_filter runs]
      simp [List.isEmpty_iff, List.map_eq_nil_iff, List.length_map, Function.comp_def]
  · simp only [Main.stats_avg_hr]
    rw [hr_vals_eq_filter runs]
    simp [List.isEmpty_iff, List.map_eq_nil_iff, List.length_map, Function.comp_def]

/-- One step of a running minimum. -/
def min_step (acc : Option Int) (v : Int) : Option Int :=
  match acc with
  | none => some v
  | some x => some (min x v)

/-- Running minimum of a list continued from an accumulator. -/
def min_fold (acc : Option Int) (l : List Int) : Option Int := l.foldl min_step acc

/-- Minimum of a list of elapsed times, `none` for the empty list. -/
def min_list (l : List Int) : Option Int := min_fold none l

/-- The elapsed times of the entries of a best-efforts sub-list whose
    lower-cased label satisfies `pred`. -/
def matched_efforts (es : List Effort) (pred : String → Bool) : List Int :=
  (es.filter (fun e => pred (Stats.lower_name e))).map Effort.elapsed_time

/-- All matching elapsed times across the retained raw payloads of a record
    list, in order. -/
def matched_times (runs : List Stats.Activity) (pred : String → Bool) : List Int :=
  runs.foldr (fun r acc =>
    (match r.raw with
     | some raw => matched_efforts raw.best_efforts pred ++ acc
     | none => acc)) []

theorem upd_best_eq_min_step (b : Option Int) (v : Int) :
    Stats.upd_best b v = min_step b v := by
  cases b with
  | none => rfl
  | some x =>
    simp only [Stats.upd_best, min_step]
    by_cases h : v < x
    · rw [if_pos h, min_eq_right (le_of_lt h)]
    · rw [if_neg h, min_eq_left (by omega)]

theorem effort_fold_eq (es : List Effort) :
    ∀ b : Option Int × Option Int × Option Int,
      es.foldl Stats.effort_step b =
        (min_fold b.1 (matched_efforts es Stats.p5k),
         min_fold b.2.1 (matched_efforts es Stats.p10k),
         min_fold b.2.2 (matched_efforts es Stats.p21k)) := by
  induction es with
  | nil => intro b; rfl
  | cons e es ih =>
    intro b
    rw [List.foldl_cons, ih]
    by_cases q5 : Stats.p5k (Stats.lower_name e) <;>
    by_cases q10 : Stats.p10k (Stats.lower_name e) <;>
    by_cases q21 : Stats.p21k (Stats.lower_name e) <;>
      simp [Stats.effort_step, matched_efforts, List.filter_cons, q5, q10, q21,
            min_fold, upd_best_eq_min_step]

theorem run_fold_eq (runs : List Stats.Activity) :
    ∀ b : Option Int × Option Int × Option Int,
      runs.foldl Stats.run_step b =
        (min_fold b.1 (matched_times runs Stats.p5k),
         min_fold b.2.1 (matched_times runs Stats.p10k),
         min_fold b.2.2 (matched_times runs Stats.p21k)) := by
  induction runs with
  | nil => intro b; rfl
  | cons r rs ih =>
    intro b
    rw [List.foldl_cons, ih]
    cases hr : r.raw with
    | none => simp [Stats.run_step, matched_times, hr]
    | some raw =>
      simp [Stats.run_step, hr, matched_times, effort_fold_eq, min_fold, List.foldl_append]

theorem scan_best_eq (runs : List Stats.Activity) :
    Stats.scan_best runs =
      (min_list (matched_times runs Stats.p5k),
       min_list (matched_times runs Stats.p10k),
       min_list (matched_times runs Stats.p21k)) :=
  run_fold_eq runs (none, none, none)

/-- Claim C8 amended: the stats-module summary's best-effort times are as
    claimed — for each of the three standard distances, the minimum elapsed
    time among the raw best-effort entries whose lower-cased label matches the
    distance's canonical labels by substring, formatted m:ss, absent when no
    record has a matching entry.  The endpoint summary in main.py computes its
    best-effort slots differently (see the counterexample): it extrapolates
    from whole activities instead of scanning the raw sub-lists. -/
theorem summarize_best_efforts_min_spec (runs : List Stats.Activity) :
    Stats.be_get (Stats.summarize_runs runs).best_efforts "5k" =
      (min_list (matched_times runs Stats.p5k)).map Stats.fmt_time ∧
    Stats.be_get (Stats.summarize_runs runs).best_efforts "10k" =
      (min_list (matched_times runs Stats.p10k)).map Stats.fmt_time ∧
    Stats.be_get (Stats.summarize_runs runs).best_efforts "21k" =
      (min_list (matched_times runs Stats.p21k)).map Stats.fmt_time := by
  by_cases he : runs.isEmpty
  · have hnil : runs = [] := by
      cases runs
      · rfl
      · cases he
    subst hnil
    exact ⟨rfl, rfl, rfl⟩
  · simp only [Stats.summarize_runs, if_neg he]
    rw [scan_best_eq runs]
    refine ⟨?_, ?_, ?_⟩ <;> simp [Stats.be_get, List.lookup]

/-- A 10 km run in 2400 s whose raw payload records a 5 km best effort of
    1100 s. -/
def c8_run : Stats.Activity :=
  { distance_m := 10000, moving_time_s := 2400, total_elevation_gain_m := 10,
    average_heartrate := some 150,
    raw := some
      { id := some 77, athlete := some 7, athlete_id := none, sport_type := none,
        type := some "Run", start_date := none, start_date_local := none,
        name := some "Long Run", distance := some 10000, moving_time := some 2400,
        elapsed_time := some 2450, total_elevation_gain := some 10,
        average_heartrate := some 150, max_heartrate := some 170,
        best_efforts := [{ name := some "5k", elapsed_time := 1100 }] } }

/-- Claim C8 counterexample: for this record the minimum matching raw 5 km
    best-effort elapsed time is 1100 s ("18:20"), but main.py's
    `best_time_for_dist` — the endpoint summary's best-effort computation —
    returns "20:00" (2400 s scaled by 5000/10000), so the endpoint summary's
    best-effort time does not equal the claimed raw-sub-list minimum. -/
theorem best_time_for_dist_counterexample :
    Main.best_time_for_dist [c8_run] 5000 = some "20:00" ∧
    (min_list (matched_times [c8_run] Stats.p5k)).map Stats.fmt_time = some "18:20" ∧
    Main.best_time_for_dist [c8_run] 5000 ≠
      (min_list (matched_times [c8_run] Stats.p5k)).map Stats.fmt_time := by
  have h1 : Main.best_time_for_dist [c8_run] 5000 = some "20:00" := by
    have ht : py_trunc ((2400 : ℚ) * (5000 / 10000)) = 1200 := by
      norm_num [py_trunc, qfloor]
    simp [Main.best_time_for_dist, c8_run, List.filter_cons]
    rw [ht]
    decide
  have h2 : (min_list (matched_times [c8_run] Stats.p5k)).map Stats.fmt_time
      = some "18:20" := by decide
  refine ⟨h1, h2, ?_⟩
  rw [h1, h2]
  decide

/-- Claim C3: `query_runs` returns one output dictionary per selected row;
    the selected rows are exactly (as a permutation, hence also in count) the
    stored records whose owning athlete matches, whose kind is in the
    running-kind set, and whose start instant lies inside the closed query
    interval; they are sorted ascending by start instant; and the result is
    empty (never an error — the function is total) exactly when no row
    matches, which the length equality with the filter makes precise. -/
theorem query_runs_filter_sort_spec (db : List Storage.Activity) (athlete_id : Int)
    (start_key stop_key : Nat) :
    Storage.query_runs db athlete_id start_key stop_key =
      (Storage.run_rows db athlete_id start_key stop_key).map Storage.row_out ∧
    (Storage.run_rows db athlete_id start_key stop_key).Perm
      (db.filter (Storage.run_match athlete_id start_key stop_key)) ∧
    (Storage.run_rows db athlete_id start_key stop_key).Sorted Storage.run_le ∧
    (Storage.query_runs db athlete_id start_key stop_key).length =
      (db.filter (Storage.run_match athlete_id start_key stop_key)).length := by
  refine ⟨rfl, ?_, ?_, ?_⟩
  · exact List.perm_insertionSort _ _
  · exact List.sorted_insertionSort _ _
  · simp only [Storage.query_runs, Storage.run_rows, List.length_map]
    exact (List.perm_insertionSort _ _).length_eq
